import Mathlib

/-!
Verification of the Autonomous-LAB-TA backend (FastAPI service in
`backend/main.py` together with `backend/services/rag_service.py` and
`backend/services/code_executor.py`).

The Python code is shallowly embedded: strings are Lean `String`s handled as
their `List Char` data (all inputs of interest are ASCII), Python floats are
modelled as exact rationals (`ℚ`; IEEE-754 rounding noise is not modelled),
Python dicts returned by the service functions become Lean structures, and the
impure steps (spawning a subprocess, opening the SQLite database) are
abstracted into explicit parameters describing their outcome.  Helper
functions mirror the Python string/regex operations used by the source
(`str.split`, `str.strip`, `str.lower`, `re.findall`, `re.sub`,
`difflib.SequenceMatcher.ratio`).
-/

/-- Python `sub in s` (substring test): is `needle` a prefix of `hay`? -/
def isPrefixL : List Char → List Char → Bool
  | [], _ => true
  | _ :: _, [] => false
  | a :: as, b :: bs => a == b && isPrefixL as bs

/-- Substring search on character lists; `containsL needle hay` is Python
`needle in hay`. -/
def containsL (needle : List Char) : List Char → Bool
  | [] => needle.isEmpty
  | c :: cs => isPrefixL needle (c :: cs) || containsL needle cs

/-- Python `sub in s` on strings. -/
def strContains (hay sub : String) : Bool :=
  containsL sub.data hay.data

/-- Python `s.startswith(pre)`. -/
def pyStartsWith (s pre : String) : Bool :=
  isPrefixL pre.data s.data

/-- Whitespace class of Python `str.strip` / regex `\s` (ASCII part). -/
def pyIsSpace (c : Char) : Bool :=
  c == ' ' || c == '\t' || c == '\n' || c == '\r' || c.toNat == 11 || c.toNat == 12

/-- Python `s.strip()`: drop leading and trailing whitespace. -/
def pyStrip (s : String) : String :=
  String.mk (((s.data.dropWhile pyIsSpace).reverse.dropWhile pyIsSpace).reverse)

/-- Python `s.lower()` (ASCII case folding). -/
def pyLower (s : String) : String :=
  String.mk (s.data.map Char.toLower)

/-- Python `s[:n]` on strings (slicing by characters). -/
def pyTake (s : String) (n : ℕ) : String :=
  String.mk (s.data.take n)

/-- Split a character list at every occurrence of `sep`, keeping empty
segments; mirrors Python `str.split(sep)` (so the result is never empty). -/
def splitListOn (sep : Char) : List Char → List (List Char)
  | [] => [[]]
  | c :: cs =>
    let r := splitListOn sep cs
    if c = sep then [] :: r
    else
      match r with
      | [] => [[c]]
      | h :: t => (c :: h) :: t

/-- Python `s.split(sep)` for a one-character separator. -/
def pySplit (s : String) (sep : Char) : List String :=
  (splitListOn sep s.data).map String.mk

/-- Python `'sep'.join(parts)`. -/
def pyJoin (sep : String) : List String → String
  | [] => ""
  | [s] => s
  | s :: rest => s ++ sep ++ pyJoin sep rest

/-- Python `line.split(c)[0]`: the prefix before the first occurrence of the
character `c` (the whole string when `c` does not occur). -/
def takeBeforeChar (s : String) (c : Char) : String :=
  String.mk (s.data.takeWhile (· ≠ c))

/-- Helper for `takeBeforeSub`: prefix of the list before the first occurrence
of `sub`. -/
def takeBeforeSubAux (sub : List Char) : List Char → List Char
  | [] => []
  | c :: cs => if isPrefixL sub (c :: cs) then [] else c :: takeBeforeSubAux sub cs

/-- Python `s.split(sub)[0]`: prefix before the first occurrence of `sub`. -/
def takeBeforeSub (s sub : String) : String :=
  String.mk (takeBeforeSubAux sub.data s.data)

/-- Python `s.split(c, 1)[1]`: the suffix after the first occurrence of the
character `c` (empty when `c` does not occur). -/
def afterChar (s : String) (c : Char) : String :=
  String.mk ((s.data.dropWhile (· ≠ c)).drop 1)

/-- Helper for `pyReplace` (fuel ≥ list length, so fuel never runs out). -/
def replaceAllAux (sub repl : List Char) : ℕ → List Char → List Char
  | 0, l => l
  | _ + 1, [] => []
  | fuel + 1, c :: cs =>
    if isPrefixL sub (c :: cs) then repl ++ replaceAllAux sub repl fuel ((c :: cs).drop sub.length)
    else c :: replaceAllAux sub repl fuel cs

/-- Python `s.replace(sub, repl)`: replace all non-overlapping occurrences,
left to right (`sub` is assumed non-empty, as at every call site). -/
def pyReplace (s sub repl : String) : String :=
  String.mk (replaceAllAux sub.data repl.data s.data.length s.data)

/-- The `classify_error` helper of `backend/main.py` (lines 449-488): ordered,
case-insensitive substring search over a fixed priority list; if no rule
matches, the token before the first colon of the first line is returned,
otherwise `RuntimeError`. -/
def classifyError (errorMessage : String) : String :=
  if errorMessage = "" then "UnknownError"
  else
    let el := pyLower errorMessage
    if strContains el "indexerror" || strContains el "arrayindexoutofbounds" then "IndexError"
    else if strContains el "syntaxerror" then "SyntaxError"
    else if strContains el "nameerror" || strContains el "cannot find symbol" then "NameError"
    else if strContains el "typeerror" then "TypeError"
    else if strContains el "indentationerror" then "IndentationError"
    else if strContains el "zerodivisionerror" || strContains el "divide by zero" then "ZeroDivisionError"
    else if strContains el "keyerror" then "KeyError"
    else if strContains el "attributeerror" then "AttributeError"
    else if strContains el "valueerror" then "ValueError"
    else if strContains el "timeout" then "TimeoutError"
    else if strContains el "off by one" || (strContains el "index" && strContains el "range") then "off_by_one"
    else if strContains el "missing return" || strContains el "does not return" then "missing_return"
    else if strContains el "infinite loop" || strContains el "while true" then "infinite_loop"
    else
      match pySplit (pyStrip errorMessage) '\n' with
      | [] => "RuntimeError"
      | firstLine :: _ =>
        if strContains firstLine ":" then takeBeforeChar firstLine ':'
        else "RuntimeError"

/-!
Model of `difflib.SequenceMatcher(None, a, b).ratio()` as used by
`ManualCodeChecker._compare_outputs` and `_calculate_similarity_score`
(`backend/main.py` lines 708 and 746).  The junk machinery of difflib is not
modelled: no junk argument is passed at either call site, and the autojunk
heuristic only affects sequences of length ≥ 200.  The dictionary `j2len` of
`find_longest_match` is represented as a function `ℕ → ℕ` that is zero where
the dictionary has no entry.
-/

/-- One row of the `find_longest_match` dynamic program: the new `j2len`
mapping computed while scanning element `i` of `a`.  `newj2len[j]` is set (to
`j2len[j-1] + 1`) exactly at the indices `j ∈ [blo, bhi)` where `b[j] = a[i]`. -/
def flmRow (A B : List Char) (i blo bhi : ℕ) (prev : ℕ → ℕ) : ℕ → ℕ :=
  fun j =>
    if blo ≤ j ∧ j < bhi ∧ A.getD i ' ' = B.getD j ' ' then
      (if j = blo then 0 else prev (j - 1)) + 1
    else 0

/-- Scan the inner loop of `find_longest_match` over `cnt` indices starting at
`j`, replacing the best block by `(i-k+1, j-k+1, k)` whenever a strictly longer
match `k = newj2len[j]` is found (difflib keeps the first maximum, which the
strict comparison reproduces). -/
def rowBest (i : ℕ) (new : ℕ → ℕ) : ℕ → ℕ → ℕ × ℕ × ℕ → ℕ × ℕ × ℕ
  | 0, _, best => best
  | cnt + 1, j, best =>
    rowBest i new cnt (j + 1)
      (if new j > best.2.2 then (i + 1 - new j, j + 1 - new j, new j) else best)

/-- Outer loop of `find_longest_match`: process `rows` consecutive values of
`i`, threading the `j2len` row and the best block. -/
def flmGo (A B : List Char) (alo blo bhi : ℕ) : ℕ → ℕ → (ℕ → ℕ) → ℕ × ℕ × ℕ → ℕ × ℕ × ℕ
  | 0, _, _, best => best
  | rows + 1, i, prev, best =>
    let new := flmRow A B i blo bhi prev
    flmGo A B alo blo bhi rows (i + 1) new (rowBest i new (bhi - blo) blo best)

/-- `SequenceMatcher.find_longest_match(alo, ahi, blo, bhi)` (without junk):
the longest block on which `a[alo:ahi]` and `b[blo:bhi]` agree, earliest in
`a` then in `b` among ties; `(alo, blo, 0)` when there is no common element. -/
def findLongestMatch (A B : List Char) (alo ahi blo bhi : ℕ) : ℕ × ℕ × ℕ :=
  flmGo A B alo blo bhi (ahi - alo) alo (fun _ => 0) (alo, blo, 0)

/-- Total size of the matching blocks of `get_matching_blocks`, computed by the
standard recursion around `find_longest_match`.  The fuel only has to exceed
`ahi - alo`, as each recursive call strictly shrinks the `a`-interval. -/
def matchingTotal (A B : List Char) : ℕ → ℕ → ℕ → ℕ → ℕ → ℕ
  | 0, _, _, _, _ => 0
  | fuel + 1, alo, ahi, blo, bhi =>
    match findLongestMatch A B alo ahi blo bhi with
    | (bi, bj, k) =>
      if k = 0 then 0
      else matchingTotal A B fuel alo bi blo bj + k + matchingTotal A B fuel (bi + k) ahi (bj + k) bhi

/-- `difflib.SequenceMatcher(None, a, b).ratio()`: `2.0 * M / T` where `M` is
the total size of the matching blocks and `T` the total length (`1.0` when both
sequences are empty, as in difflib's `_calculate_ratio`). -/
def seqRatio (a b : String) : ℚ :=
  let A := a.data
  let B := b.data
  let total := A.length + B.length
  if total = 0 then 1
  else (2 * (matchingTotal A B (A.length + 1) 0 A.length 0 B.length) : ℚ) / total

/-!
Embedding of `ManualCodeChecker` (`backend/main.py` lines 586-809).  The two
`execute_python_code` calls in `compare` are impure; they are abstracted as an
oracle `pyExec : String → PyExecOut` giving the outcome of executing a Python
program (for a non-`"python"` language the source never executes anything and
uses the literal dict `{"success": False, "output": ""}`).  The list-valued
diagnostic fields of the result (`errors`, `code_differences`, `suggestions`),
which no verified property mentions, are not modelled.
-/

/-- Word character of the regex `\w` (ASCII part), used by the `\b\w+\b`
tokenizer of `_check_syntax_match`. -/
def pyIsWordChar (c : Char) : Bool :=
  c.isAlphanum || c == '_'

/-- Helper for `wordTokens`: collect maximal runs of word characters (the
accumulator holds the current run, reversed). -/
def wordTokensAux : List Char → List Char → List String
  | [], acc => if acc = [] then [] else [String.mk acc.reverse]
  | c :: cs, acc =>
    if pyIsWordChar c then wordTokensAux cs (c :: acc)
    else if acc = [] then wordTokensAux cs []
    else String.mk acc.reverse :: wordTokensAux cs []

/-- Python `re.findall(r'\b\w+\b', s)`: the maximal word-character runs. -/
def wordTokens (s : String) : List String :=
  wordTokensAux s.data []

/-- Helper for `collapseWs` (fuel ≥ list length, so fuel never runs out). -/
def collapseWsAux : ℕ → List Char → List Char
  | 0, l => l
  | _ + 1, [] => []
  | fuel + 1, c :: cs =>
    if pyIsSpace c then ' ' :: collapseWsAux fuel (cs.dropWhile pyIsSpace)
    else c :: collapseWsAux fuel cs

/-- Python `re.sub(r'\s+', ' ', s)`: collapse every whitespace run to one
space. -/
def collapseWs (s : String) : String :=
  String.mk (collapseWsAux s.data.length s.data)

/-- Blank every second segment of a quote-split list: segments between the
1st/2nd, 3rd/4th, ... occurrence of the quote are string contents and are
emptied; a trailing segment after an unpaired quote is kept. -/
def pairBlank : List (List Char) → List (List Char)
  | [] => []
  | [s] => [s]
  | _ :: s2 :: rest => [] :: s2 :: pairBlank rest

/-- Helper joining segments back with the quote character in between. -/
def joinWithChar (sep : Char) : List (List Char) → List Char
  | [] => []
  | [s] => s
  | s :: rest => s ++ sep :: joinWithChar sep rest

/-- Python `re.sub(r'q[^q]*q', 'qq', s)` for a quote character `q`: the regex
pairs quotes from the left and blanks the contents of each pair, leaving an
unpaired final quote (and what follows it) unchanged. -/
def blankQuotes (q : Char) (s : String) : String :=
  match splitListOn q s.data with
  | [] => ""
  | s0 :: rest => String.mk (joinWithChar q (s0 :: pairBlank rest))

/-- Python `re.sub(r'#.*$', '', code, flags=re.MULTILINE)`: truncate every
line at its first `#`. -/
def stripComments (s : String) : String :=
  pyJoin "\n" ((pySplit s '\n').map (fun line => String.mk (line.data.takeWhile (· ≠ '#'))))

/-- The `_normalize_code` method (lines 771-780): strip comments, collapse
whitespace, blank double- then single-quoted string contents, strip and
lower-case. -/
def normalizeCode (code : String) : String :=
  pyLower (pyStrip (blankQuotes '\'' (blankQuotes '"' (collapseWs (stripComments code)))))

/-- The `_check_syntax_match` method (lines 631-648): Jaccard similarity of
the word-token sets of the two normalized code bodies; `0.0` when either token
list is empty. -/
def checkSyntaxMatch (code1 code2 : String) : ℚ :=
  let tokens1 := wordTokens (normalizeCode code1)
  let tokens2 := wordTokens (normalizeCode code2)
  if tokens1 = [] ∨ tokens2 = [] then 0
  else
    let set1 := tokens1.toFinset
    let set2 := tokens2.toFinset
    let inter := (set1 ∩ set2).card
    let union := (set1 ∪ set2).card
    if 0 < union then (inter : ℚ) / union else 0

/-- The fixed structural marker list of `_check_structure_match` (line 653). -/
def structuralElements : List String :=
  ["def ", "if ", "for ", "while ", "return ", "import ", "from ", "class "]

/-- The `_check_structure_match` method (lines 650-664): `count1`/`count2`
are the numbers of distinct structural markers present in each body
(`sum(1 for elem in elements if elem in code)` counts presence, not
occurrences); similarity is `1 - |count1-count2| / max(count1, count2, 1)`,
and `1.0` when both counts are zero. -/
def checkStructureMatch (code1 code2 : String) : ℚ :=
  let count1 := (structuralElements.filter (fun e => strContains code1 e)).length
  let count2 := (structuralElements.filter (fun e => strContains code2 e)).length
  if count1 = 0 ∧ count2 = 0 then 1
  else
    let diff := max count1 count2 - min count1 count2
    let maxCount := max (max count1 count2) 1
    1 - (diff : ℚ) / (maxCount : ℚ)

/-- The per-language logic indicator lists of `_check_logic_match`
(lines 668-672); `dict.get(language, [])` yields `[]` for other languages. -/
def logicIndicators (language : String) : List String :=
  if language = "python" then
    ["def ", "return ", "for ", "while ", "if ", "else ", "elif ", "in ", "range(", "len("]
  else if language = "javascript" then
    ["function ", "return ", "for ", "while ", "if ", "else ", "const ", "let ", "var "]
  else if language = "java" then
    ["public ", "private ", "return ", "for ", "while ", "if ", "else ", "class ", "void "]
  else []

/-- The `_check_logic_match` method (lines 666-686): +0.1 per indicator
present in both bodies, +0.05 per indicator present in exactly one, clamped
to 1.0. -/
def checkLogicMatch (studentCode manualCode language : String) : ℚ :=
  let score := (logicIndicators language).foldl
    (fun acc indicator =>
      let inStudent := strContains studentCode indicator
      let inManual := strContains manualCode indicator
      if inStudent && inManual then acc + 1/10
      else if (inStudent && !inManual) || (!inStudent && inManual) then acc + 1/20
      else acc) 0
  min score 1

/-- Helper for `findNums`: length of the regex match `\d+\.?\d*` starting at
the head of the list (assumed to start with a digit). -/
def numTokenLen (l : List Char) : ℕ :=
  let d1 := (l.takeWhile Char.isDigit).length
  match l.drop d1 with
  | '.' :: rest => d1 + 1 + (rest.takeWhile Char.isDigit).length
  | _ => d1

/-- Helper for `findNums`: left-to-right regex scan (fuel ≥ list length, so
fuel never runs out: each step consumes at least one character). -/
def findNumsAux : ℕ → List Char → List String
  | 0, _ => []
  | _ + 1, [] => []
  | fuel + 1, c :: cs =>
    if c.isDigit then
      let n := numTokenLen (c :: cs)
      String.mk ((c :: cs).take n) :: findNumsAux fuel ((c :: cs).drop n)
    else findNumsAux fuel cs

/-- Python `re.findall(r'\d+\.?\d*', s)`: all numeric literals, scanned left
to right with greedy matching. -/
def findNums (s : String) : List String :=
  findNumsAux s.data.length s.data

/-- The `_compare_outputs` method (lines 688-709): `0.0` when either raw
output is falsy (empty), `1.0` on equality of the stripped lower-cased
outputs, `0.8` when both contain numeric literals and the extracted numeric
sequences are equal, otherwise the `SequenceMatcher` ratio of the normalized
outputs. -/
def compareOutputs (output1 output2 : String) : ℚ :=
  if output1 = "" ∨ output2 = "" then 0
  else
    let clean1 := pyLower (pyStrip output1)
    let clean2 := pyLower (pyStrip output2)
    if clean1 = clean2 then 1
    else
      let nums1 := findNums clean1
      let nums2 := findNums clean2
      if nums1 ≠ [] ∧ nums2 ≠ [] ∧ nums1 = nums2 then 4/5
      else seqRatio clean1 clean2

/-- The `_calculate_grade` method (lines 782-793): step function from the
aggregate score to a letter grade, closed on the lower bound. -/
def calculateGrade (score : ℚ) : String :=
  if score ≥ 9/10 then "A"
  else if score ≥ 8/10 then "B"
  else if score ≥ 7/10 then "C"
  else if score ≥ 6/10 then "D"
  else "F"

/-- Round-half-to-even of a rational to an integer, modelling Python's
`round` on the exact values that arise here. -/
def roundHalfEven (q : ℚ) : ℤ :=
  let f := ⌊q⌋
  let r := q - f
  if r < 1/2 then f
  else if 1/2 < r then f + 1
  else if f % 2 = 0 then f else f + 1

/-- Python `round(x, 2)` on the exact rational model. -/
def pyRound2 (q : ℚ) : ℚ :=
  (roundHalfEven (100 * q) : ℚ) / 100

/-- Outcome of one `execute_python_code` call as consumed by
`ManualCodeChecker.compare` (only `success` and `output` of the result dict
are read by the comparison pipeline). -/
structure PyExecOut where
  success : Bool
  output : String
  deriving DecidableEq, Repr

/-- Result record of `ManualCodeChecker.compare` (lines 590-626), restricted
to the scalar fields; `overallScore` is the rounded aggregate stored in the
result dict, while `grade` is computed from the unrounded aggregate, exactly
as in the source. -/
structure CompareResult where
  syntaxMatch : ℚ
  structureMatch : ℚ
  logicMatch : ℚ
  outputMatch : ℚ
  similarityScore : ℚ
  overallScore : ℚ
  grade : String
  studentExec : PyExecOut
  manualExec : PyExecOut
  deriving DecidableEq, Repr

/-- The `ManualCodeChecker.compare` method (lines 590-626): execute both
bodies when the language is `"python"` (otherwise use the literal failed
result), compute the four similarity scores, aggregate with weights
0.25/0.25/0.25/0.25, round the stored score to two decimals and grade the
unrounded aggregate. -/
def compareCodes (studentCode manualCode language : String) (pyExec : String → PyExecOut) : CompareResult :=
  let studentExec := if language = "python" then pyExec studentCode else { success := false, output := "" }
  let manualExec := if language = "python" then pyExec manualCode else { success := false, output := "" }
  let syntaxScore := checkSyntaxMatch studentCode manualCode
  let structureScore := checkStructureMatch studentCode manualCode
  let logicScore := checkLogicMatch studentCode manualCode language
  let outputScore := compareOutputs studentExec.output manualExec.output
  let overall := syntaxScore * (1/4) + structureScore * (1/4) + logicScore * (1/4) + outputScore * (1/4)
  { syntaxMatch := syntaxScore
    structureMatch := structureScore
    logicMatch := logicScore
    outputMatch := outputScore
    similarityScore := pyRound2 (seqRatio studentCode manualCode)
    overallScore := pyRound2 overall
    grade := calculateGrade overall
    studentExec := studentExec
    manualExec := manualExec }

/-!
Embedding of the execution helpers.  `subprocess.run` and the temporary file
are impure; the run step is abstracted as a `SpawnOutcome` describing what the
child-process invocation did (the temporary file is assumed to have been
created successfully, which is where both functions' `try` blocks can first
fail).  The `FS` variants additionally return a `Bool` recording whether the
temporary source file was unlinked before returning, which is the
observable footprint of the cleanup logic.
-/

/-- Outcome of a `subprocess.run` invocation: normal completion with exit
code and captured streams, `TimeoutExpired`, `FileNotFoundError` (missing
interpreter binary), or any other exception. -/
inductive SpawnOutcome where
  | completed (returncode : ℤ) (stdout : String) (stderr : String)
  | timedOut
  | binaryMissing (msg : String)
  | otherError (msg : String)
  deriving DecidableEq, Repr

/-- Result dict of `execute_python_code` (`backend/main.py` lines 350-395). -/
structure PyRunResult where
  success : Bool
  output : String
  error : Option String
  errorType : Option String
  returnCode : Option ℤ
  deriving DecidableEq, Repr

/-- The `execute_python_code` helper (lines 350-395) together with the fate of
its temporary file: the file is unlinked only on the normal-completion path
(`os.unlink` precedes the return); `subprocess.TimeoutExpired` is reported as
`TimeoutError` and any other exception — including `FileNotFoundError` when
the `python` binary is absent, which has no dedicated handler here — falls to
the generic handler reporting `ExecutionError`.  The second component is
`true` iff the temporary file was removed. -/
def executePythonCodeFS (timeout : ℕ) (run : SpawnOutcome) : PyRunResult × Bool :=
  match run with
  | .completed rc out err =>
    ({ success := rc = 0
       output := out
       error := if rc ≠ 0 then some err else none
       errorType := if rc ≠ 0 then some (classifyError err) else none
       returnCode := some rc }, true)
  | .timedOut =>
    ({ success := false
       output := ""
       error := some ("Execution timed out after " ++ toString timeout ++ " seconds")
       errorType := some "TimeoutError"
       returnCode := none }, false)
  | .binaryMissing msg =>
    ({ success := false
       output := ""
       error := some msg
       errorType := some "ExecutionError"
       returnCode := none }, false)
  | .otherError msg =>
    ({ success := false
       output := ""
       error := some msg
       errorType := some "ExecutionError"
       returnCode := none }, false)

/-- The `execute_python_code` result alone. -/
def executePythonCode (timeout : ℕ) (run : SpawnOutcome) : PyRunResult :=
  (executePythonCodeFS timeout run).1

/-- Result dict of `execute_javascript_code` (lines 397-447; it has no
`return_code` key). -/
structure JsRunResult where
  success : Bool
  output : String
  error : Option String
  errorType : Option String
  deriving DecidableEq, Repr

/-- The `execute_javascript_code` helper (lines 397-447) with the fate of its
temporary file.  Unlike the Python variant it has a dedicated
`FileNotFoundError` handler reporting `RuntimeMissing` when the `node` binary
is absent; the temporary file is again unlinked only on normal completion. -/
def executeJavascriptCodeFS (timeout : ℕ) (run : SpawnOutcome) : JsRunResult × Bool :=
  match run with
  | .completed rc out err =>
    ({ success := rc = 0
       output := out
       error := if rc ≠ 0 then some err else none
       errorType := if rc ≠ 0 then some (classifyError err) else none }, true)
  | .binaryMissing _ =>
    ({ success := false
       output := ""
       error := some "Node.js is not installed. Please install Node.js to run JavaScript code."
       errorType := some "RuntimeMissing" }, false)
  | .timedOut =>
    ({ success := false
       output := ""
       error := some ("Execution timed out after " ++ toString timeout ++ " seconds")
       errorType := some "TimeoutError" }, false)
  | .otherError msg =>
    ({ success := false
       output := ""
       error := some msg
       errorType := some "ExecutionError" }, false)

/-- The `execute_javascript_code` result alone. -/
def executeJavascriptCode (timeout : ℕ) (run : SpawnOutcome) : JsRunResult :=
  (executeJavascriptCodeFS timeout run).1

/-- Result dict of `CodeExecutor._execute_local`
(`backend/services/code_executor.py` lines 90-167); `output` is `none` on the
branches whose dict has no `output` key, and the wall-clock `execution_time`
is not modelled. -/
structure LocalRunResult where
  success : Bool
  output : Option String
  error : String
  sandboxed : Bool
  deriving DecidableEq, Repr

/-- The `CodeExecutor._execute_local` method (lines 90-167) with the fate of
its temporary source file.  `compileRun` is the `javac`/`gcc` invocation used
by the compiled languages (ignored otherwise), `run` the main invocation.
Every branch — normal return, compile-failure return, unsupported-language
return, timeout and exception handlers — passes through the `finally` block,
which unlinks the temporary file (the inner `try`/`except pass` keeps the
cleanup itself from raising), so the second component is `true` on every
path. -/
def executeLocalFS (language : String) (compileRun run : SpawnOutcome) : LocalRunResult × Bool :=
  if language = "python" ∨ language = "javascript" then
    match run with
    | .completed rc out err =>
      ({ success := rc = 0, output := some out
         error := if rc ≠ 0 then err else "", sandboxed := false }, true)
    | .timedOut =>
      ({ success := false, output := none
         error := "Execution timed out (10 seconds)", sandboxed := false }, true)
    | .binaryMissing msg =>
      ({ success := false, output := none, error := msg, sandboxed := false }, true)
    | .otherError msg =>
      ({ success := false, output := none, error := msg, sandboxed := false }, true)
  else if language = "java" ∨ language = "c" then
    match compileRun with
    | .completed crc _ cerr =>
      if crc ≠ 0 then
        ({ success := false, output := none, error := cerr, sandboxed := false }, true)
      else
        match run with
        | .completed rc out err =>
          ({ success := rc = 0, output := some out
             error := if rc ≠ 0 then err else "", sandboxed := false }, true)
        | .timedOut =>
          ({ success := false, output := none
             error := "Execution timed out (10 seconds)", sandboxed := false }, true)
        | .binaryMissing msg =>
          ({ success := false, output := none, error := msg, sandboxed := false }, true)
        | .otherError msg =>
          ({ success := false, output := none, error := msg, sandboxed := false }, true)
    | .timedOut =>
      ({ success := false, output := none
         error := "Execution timed out (10 seconds)", sandboxed := false }, true)
    | .binaryMissing msg =>
      ({ success := false, output := none, error := msg, sandboxed := false }, true)
    | .otherError msg =>
      ({ success := false, output := none, error := msg, sandboxed := false }, true)
  else
    ({ success := false, output := none
       error := "Unsupported language: " ++ language, sandboxed := false }, true)

/-!
Embedding of `RAGService` (`backend/services/rag_service.py`).  The SQLite
corpus is abstracted as an in-memory list of rows ordered by `created_at`
descending (the query's `ORDER BY`); SQL `LIKE '%x%'` is an ASCII
case-insensitive substring test and `=` a case-sensitive comparison.  Failure
of `sqlite3.connect` inside `_search_by_patterns` — the one exception that can
escape to `generate_hint`'s handler — is modelled by the `connectFail`
parameter, and failure of the guarded `cursor.execute` (caught locally,
yielding `rows = []`) by `queryFails`.  `_store_solution_patterns` swallows
its own exceptions and only appends to the store, which no verified property
observes, so it is not modelled further.
-/

/-- One row of the `rag_solutions` table. -/
structure RagRow where
  id : ℕ
  taskId : Option String
  language : String
  code : String
  errorType : String
  hint : String
  deriving DecidableEq, Repr

/-- One entry of the candidate list built by `_search_by_patterns`. -/
structure SimilarSolution where
  id : ℕ
  taskId : Option String
  code : String
  errorType : String
  hint : String
  score : ℚ
  deriving DecidableEq, Repr

/-- Patterns contributed by one (stripped, non-empty, non-comment) line in
`_extract_patterns` (lines 103-128), in the order the appends occur. -/
def linePatterns (language : String) (line : String) : List String :=
  (if language = "python" && pyStartsWith line "def " then
    ["function_def:" ++ pyReplace (takeBeforeChar line '(') "def " ""]
  else []) ++
  (if strContains line "for " || strContains line "while " then ["loop_statement"] else []) ++
  (if pyStartsWith line "if " || pyStartsWith line "elif " || strContains line "else:" then
    ["conditional_statement"] else []) ++
  (if strContains line "return " then ["return_statement"] else []) ++
  (if strContains line " = " && !pyStartsWith line "def " then
    (let varName := pyStrip (takeBeforeSub line " = ")
     if varName ≠ "" then ["var_assignment:" ++ varName] else [])
  else [])

/-- Deduplicate keeping first occurrences.  The source's `list(set(patterns))`
has an unspecified (hash-dependent) order; every verified property is
insensitive to the order of the pattern list. -/
def dedupKeepFirst (l : List String) : List String :=
  l.foldl (fun acc x => if x ∈ acc then acc else acc ++ [x]) []

/-- The `_extract_patterns` method (lines 96-130): per-line structural tags,
collected over the stripped non-comment lines and deduplicated. -/
def extractPatterns (code language : String) : List String :=
  dedupKeepFirst
    (((pySplit (pyStrip code) '\n').map pyStrip).foldl
      (fun acc line =>
        if line = "" || pyStartsWith line "#" then acc
        else acc ++ linePatterns language line) [])

/-- The `_calculate_pattern_match_score` method (lines 199-215): function
definition patterns count 2 when `def name` occurs in the code,
`var_assignment` patterns count 1 when `name = ` occurs; any other pattern
containing `:` counts 0, and tag patterns without `:` count 1 only when the
tag text itself occurs verbatim in the code.  The score is the match count
divided by the number of patterns. -/
def calculatePatternMatchScore (patterns : List String) (code : String) : ℚ :=
  if patterns = [] then 0
  else
    let matchCount := patterns.foldl
      (fun acc pattern =>
        if strContains pattern ":" then
          let key := takeBeforeSub pattern ":"
          let value := afterChar pattern ':'
          if key = "function_def" && strContains code ("def " ++ value) then acc + 2
          else if key = "var_assignment" && strContains code (value ++ " = ") then acc + 1
          else acc
        else if strContains code pattern then acc + 1
        else acc) (0 : ℕ)
    (matchCount : ℚ) / (patterns.length : ℚ)

/-- SQLite `column LIKE '%needle%'`: ASCII case-insensitive substring test. -/
def likeContains (hay needle : String) : Bool :=
  containsL (pyLower needle).data (pyLower hay).data

/-- The SQL condition `_search_by_patterns` builds for one pattern
(lines 144-153): `function_def`/`var_assignment` patterns give a `LIKE` on
the reconstructed code fragment, other `:`-patterns give no condition, tag
patterns give a `LIKE` on the tag text. -/
def patternCondition (pattern : String) : Option (String → Bool) :=
  if strContains pattern ":" then
    let key := takeBeforeSub pattern ":"
    let value := afterChar pattern ':'
    if key = "function_def" then some (fun code => likeContains code ("def " ++ value))
    else if key = "var_assignment" then some (fun code => likeContains code (value ++ " = "))
    else none
  else some (fun code => likeContains code pattern)

/-- The `WHERE` clause of `_search_by_patterns` (lines 155-163): language
equality, optional task-id equality, a `LIKE` on the first 20 characters of
the error when the error is non-empty, and (when present) the disjunction of
the first three pattern conditions. -/
def ragWhereClause (language : String) (taskId : Option String) (error : String)
    (conds : List (String → Bool)) (row : RagRow) : Bool :=
  row.language = language &&
  (match taskId with
   | none => true
   | some t => row.taskId = some t) &&
  (if error ≠ "" then likeContains row.errorType (pyTake error 20) else true) &&
  (if !conds.isEmpty then (conds.take 3).any (fun c => c row.code) else true)

/-- Stable descending insertion by score: `x` is placed before the first
element whose score is not larger, so earlier elements win ties, reproducing
Python's stable `solutions.sort(key=lambda x: x['score'], reverse=True)`. -/
def insertByScoreDesc (x : SimilarSolution) : List SimilarSolution → List SimilarSolution
  | [] => [x]
  | y :: t => if x.score ≥ y.score then x :: y :: t else y :: insertByScoreDesc x t

/-- Stable descending sort by score (insertion sort). -/
def sortByScoreDesc : List SimilarSolution → List SimilarSolution
  | [] => []
  | x :: t => insertByScoreDesc x (sortByScoreDesc t)

/-- The `_search_by_patterns` method (lines 132-197): empty pattern list
returns early; otherwise the corpus (ordered by `created_at` descending) is
filtered by the `WHERE` clause and cut to 5 rows (`LIMIT 5`) — or comes back
empty when the guarded `cursor.execute` fails —, each row is scored against
the patterns, rows scoring at most 0.1 are dropped, candidates are truncated
to 200 code characters, and the list is stably sorted by score descending. -/
def searchByPatterns (patterns : List String) (language : String) (taskId : Option String)
    (error : String) (corpus : List RagRow) (queryFails : Bool) : List SimilarSolution :=
  if patterns = [] then []
  else
    let conds := patterns.filterMap patternCondition
    let rows := if queryFails then [] else (corpus.filter (ragWhereClause language taskId error conds)).take 5
    let solutions := rows.filterMap (fun row =>
      let score := calculatePatternMatchScore patterns row.code
      if score > 1/10 then
        some { id := row.id
               taskId := row.taskId
               code := if row.code.length > 200 then pyTake row.code 200 ++ "..." else row.code
               errorType := row.errorType
               hint := row.hint
               score := score }
      else none)
    sortByScoreDesc solutions

/-- Python `f"{q:.0%}"`: the percentage with no decimals (round-half-even on
the exact value) followed by `%`. -/
def formatPct (q : ℚ) : String :=
  toString (roundHalfEven (100 * q)) ++ "%"

/-- The per-language rule tables of `_generate_rule_based_hint`
(lines 258-287). -/
def ruleTable (language : String) : List String :=
  if language = "python" then
    ["1. Check for syntax errors (missing colons, parentheses)",
     "2. Verify indentation (use 4 spaces)",
     "3. Make sure variables are defined before use",
     "4. Check function names and arguments",
     "5. Use print() to debug variable values"]
  else if language = "java" then
    ["1. Check for missing semicolons ;",
     "2. Verify braces \x7b\x7d are balanced",
     "3. Make sure class and method names match",
     "4. Check variable types",
     "5. Ensure proper imports"]
  else if language = "javascript" then
    ["1. Check console for errors",
     "2. Verify variable declarations (let/const/var)",
     "3. Check function definitions and calls",
     "4. Look for undefined variables",
     "5. Check bracket/parenthesis matching"]
  else if language = "c" then
    ["1. Check #include statements",
     "2. Verify semicolons after statements",
     "3. Check function prototypes",
     "4. Look for uninitialized variables",
     "5. Check pointer usage"]
  else
    ["1. Check for syntax errors (missing colons, parentheses)",
     "2. Verify indentation (use 4 spaces)",
     "3. Make sure variables are defined before use",
     "4. Check function names and arguments",
     "5. Use print() to debug variable values"]

/-- The `_generate_rule_based_hint` method (lines 254-296): a static
per-language numbered checklist (`rules.get(language, rules['python'])`),
prefixed with a `Debugging <language> code:` line and, for a `pass`-containing
`sum` exercise, suffixed with one extra tip. -/
def generateRuleBasedHint (error language code : String) : String :=
  let hint := "Debugging " ++ language ++ " code:\n" ++ pyJoin "\n" (ruleTable language)
  if strContains (pyLower code) "sum" && strContains code "pass" then
    hint ++ "\n\nFor sum function: Implement the loop or use sum() function"
  else hint

/-- The `_generate_pattern_based_hint` method (lines 217-252): with no
candidate it falls back to the rule table with the language hard-coded to
`"python"`; otherwise it composes the match percentage of the best candidate,
error-keyed tips, a `pass` tip, and an excerpt of the stored hint. -/
def generatePatternBasedHint (studentCode error : String) (similarSolutions : List SimilarSolution) : String :=
  match similarSolutions with
  | [] => generateRuleBasedHint error "python" studentCode
  | bestMatch :: _ =>
    let errorLower := pyLower error
    let parts :=
      ["Found similar code pattern (" ++ formatPct bestMatch.score ++ " match):"]
      ++ (if strContains errorLower "syntax" || strContains errorLower "invalid" then
            ["• Check syntax: parentheses, brackets, colons",
             "• Verify indentation is consistent"] else [])
      ++ (if strContains errorLower "not defined" || strContains errorLower "name" then
            ["• Check variable/function names for typos",
             "• Make sure variables are declared before use"] else [])
      ++ (if strContains errorLower "index" then
            ["• Check array/list bounds",
             "• Remember indices start at 0"] else [])
      ++ (if strContains studentCode "pass" then
            ["• Replace 'pass' with actual implementation"] else [])
      ++ (if bestMatch.hint ≠ "" then
            ["\nRelated hint from similar code:",
             "\"" ++ pyTake bestMatch.hint 200 ++ "...\""] else [])
    pyJoin "\n" parts

/-- Result dict of `generate_hint` (lines 62-94): the success dict carries
`patterns_found` and no `error` key, the fallback dict carries `error` and no
`patterns_found`. -/
structure HintResponse where
  hint : String
  similarityScore : ℚ
  similarSolutions : List SimilarSolution
  ragUsed : Bool
  patternsFound : Option ℕ
  errMsg : Option String
  deriving Repr

/-- The `generate_hint` method (lines 62-94).  `connectFail` is `some msg`
when opening the database raises; `_search_by_patterns` calls
`sqlite3.connect` before its empty-pattern early return, so the exception
escapes to `generate_hint`'s handler on every request, which returns the
rule-based fallback for the request language.  On the normal path the hint
comes from `_generate_pattern_based_hint`, the reported similarity score is
the top candidate's (0 with no candidate), and the stored side effect
(`_store_solution_patterns`, which never raises) is not observable in the
response. -/
def generateHint (corpus : List RagRow) (connectFail : Option String) (queryFails : Bool)
    (studentCode error language : String) (taskId : Option String) : HintResponse :=
  let patterns := extractPatterns studentCode language
  match connectFail with
  | some msg =>
    { hint := generateRuleBasedHint error language studentCode
      similarityScore := 0
      similarSolutions := []
      ragUsed := false
      patternsFound := none
      errMsg := some msg }
  | none =>
    let similarSolutions := searchByPatterns patterns language taskId error corpus queryFails
    { hint := generatePatternBasedHint studentCode error similarSolutions
      similarityScore := match similarSolutions with
        | [] => 0
        | s :: _ => s.score
      similarSolutions := similarSolutions.take 2
      ragUsed := true
      patternsFound := some patterns.length
      errMsg := none }

/-!
Definitions following the claims' words (not the source), used to compare a
claimed formula with the implemented one where the two differ.
-/

/-- Number of occurrences of `sub` in `hay` (count of positions where `sub`
starts), for the claim's occurrence-based structural counts. -/
def occCount (sub : List Char) : List Char → ℕ
  | [] => 0
  | c :: cs => (if isPrefixL sub (c :: cs) then 1 else 0) + occCount sub cs

/-- Occurrence count on strings. -/
def strOccCount (hay sub : String) : ℕ :=
  occCount sub.data hay.data

/-- Follows claim C5's words: `count_i` is the number of OCCURRENCES of the
structural keywords in body `i` (the source instead counts the number of
distinct keywords present); the rest of the formula is as claimed. -/
def specStructuralSimilarity (code1 code2 : String) : ℚ :=
  let count1 := (structuralElements.map (fun e => strOccCount code1 e)).sum
  let count2 := (structuralElements.map (fun e => strOccCount code2 e)).sum
  if count1 = 0 ∧ count2 = 0 then 1
  else
    let diff := max count1 count2 - min count1 count2
    let maxCount := max (max count1 count2) 1
    1 - (diff : ℚ) / (maxCount : ℚ)

/-- Python `s.split()` with no separator: the whitespace-separated words. -/
def pyWords (s : String) : List String :=
  ((splitListOn ' ' (collapseWs (pyStrip s)).data).filter (fun w => w ≠ [])).map String.mk

/-- A token consisting solely of digits and dots, the natural reading of the
claim's "numeric token". -/
def isNumericToken (t : String) : Bool :=
  !t.data.isEmpty && t.data.all (fun c => c.isDigit || c == '.')

/-- Follows claim C4's words: 0.8 requires both outputs to contain ONLY
numeric tokens with equal sequences (the source only requires the extracted
numeric subsequences to be non-empty and equal, ignoring surrounding text). -/
def specOutputSimilarity (output1 output2 : String) : ℚ :=
  if output1 = "" ∨ output2 = "" then 0
  else
    let clean1 := pyLower (pyStrip output1)
    let clean2 := pyLower (pyStrip output2)
    if clean1 = clean2 then 1
    else
      let words1 := pyWords clean1
      let words2 := pyWords clean2
      if words1 ≠ [] ∧ words2 ≠ [] ∧ words1.all isNumericToken ∧ words2.all isNumericToken ∧ words1 = words2 then 4/5
      else seqRatio clean1 clean2

/-!
Bounds for the `SequenceMatcher` model: the best block returned by
`findLongestMatch` lies inside the requested intervals, hence the total match
size is at most the length of either interval and the ratio lies in `[0, 1]`.
-/

/-- The best-block triple `(i, j, k)` is trivial or lies inside
`[alo, ahi) × [blo, bhi)`. -/
def BestInv (alo ahi blo bhi : ℕ) (best : ℕ × ℕ × ℕ) : Prop :=
  best.2.2 = 0 ∨
    (alo ≤ best.1 ∧ best.1 + best.2.2 ≤ ahi ∧ blo ≤ best.2.1 ∧ best.2.1 + best.2.2 ≤ bhi)

/-- Invariant of a `j2len` row before processing row index `iNext`: non-zero
entries sit inside `[blo, bhi)` and are bounded by the distances to the
interval starts. -/
def RowOk (alo blo bhi iNext : ℕ) (f : ℕ → ℕ) : Prop :=
  ∀ j, f j ≠ 0 → blo ≤ j ∧ j < bhi ∧ f j ≤ j + 1 - blo ∧ f j + alo ≤ iNext

theorem flmRow_ok (A B : List Char) (alo i blo bhi : ℕ) (prev : ℕ → ℕ)
    (halo : alo ≤ i) (hprev : RowOk alo blo bhi i prev) :
    RowOk alo blo bhi (i + 1) (flmRow A B i blo bhi prev) := by
  intro j hj
  unfold flmRow at hj ⊢
  by_cases hg : blo ≤ j ∧ j < bhi ∧ A.getD i ' ' = B.getD j ' '
  · simp only [if_pos hg] at hj ⊢
    obtain ⟨h1, h2, _⟩ := hg
    by_cases hjb : j = blo
    · rw [if_pos hjb]
      omega
    · rw [if_neg hjb]
      by_cases hp : prev (j - 1) = 0
      · rw [hp]
        omega
      · have h3 := hprev (j - 1) hp
        omega
  · simp only [if_neg hg] at hj
    exact absurd rfl hj

theorem rowBest_inv (alo ahi blo bhi i : ℕ) (new : ℕ → ℕ) (hi : i < ahi)
    (hnew : RowOk alo blo bhi (i + 1) new) :
    ∀ cnt j best, BestInv alo ahi blo bhi best →
      BestInv alo ahi blo bhi (rowBest i new cnt j best) := by
  intro cnt
  induction cnt with
  | zero => intro j best h; exact h
  | succ n ih =>
    intro j best h
    simp only [rowBest]
    apply ih
    by_cases hgt : new j > best.2.2
    · rw [if_pos hgt]
      have h0 : new j ≠ 0 := by omega
      have h1 := hnew j h0
      right
      refine ⟨?_, ?_, ?_, ?_⟩ <;> simp <;> omega
    · rw [if_neg hgt]
      exact h

theorem flmGo_inv (A B : List Char) (alo blo bhi ahi : ℕ) :
    ∀ rows i prev best, alo ≤ i → i + rows ≤ ahi → RowOk alo blo bhi i prev →
      BestInv alo ahi blo bhi best →
      BestInv alo ahi blo bhi (flmGo A B alo blo bhi rows i prev best) := by
  intro rows
  induction rows with
  | zero => intro i prev best _ _ _ hb; exact hb
  | succ n ih =>
    intro i prev best hai hia hrow hb
    simp only [flmGo]
    exact ih (i + 1) _ _ (by omega) (by omega)
      (flmRow_ok A B alo i blo bhi prev hai hrow)
      (rowBest_inv alo ahi blo bhi i _ (by omega)
        (flmRow_ok A B alo i blo bhi prev hai hrow) _ blo best hb)

theorem findLongestMatch_inv (A B : List Char) (alo ahi blo bhi : ℕ) :
    BestInv alo ahi blo bhi (findLongestMatch A B alo ahi blo bhi) := by
  unfold findLongestMatch
  by_cases h : alo ≤ ahi
  · refine flmGo_inv A B alo blo bhi ahi (ahi - alo) alo _ _ (le_refl alo) (by omega) ?_ ?_
    · intro j hj
      exact absurd rfl hj
    · exact Or.inl rfl
  · have h0 : ahi - alo = 0 := by omega
    rw [h0]
    exact Or.inl rfl

theorem matchingTotal_le (A B : List Char) :
    ∀ fuel alo ahi blo bhi, matchingTotal A B fuel alo ahi blo bhi ≤ ahi - alo ∧
      matchingTotal A B fuel alo ahi blo bhi ≤ bhi - blo := by
  intro fuel
  induction fuel with
  | zero => intro alo ahi blo bhi; simp [matchingTotal]
  | succ n ih =>
    intro alo ahi blo bhi
    have hinv := findLongestMatch_inv A B alo ahi blo bhi
    rcases hflm : findLongestMatch A B alo ahi blo bhi with ⟨bi, bj, k⟩
    rw [hflm] at hinv
    simp only [matchingTotal, hflm]
    by_cases hk : k = 0
    · simp [hk]
    · rw [if_neg hk]
      rcases hinv with h0 | ⟨h1, h2, h3, h4⟩
      · exact absurd h0 hk
      · simp only at h1 h2 h3 h4
        have hl := ih alo bi blo bj
        have hr := ih (bi + k) ahi (bj + k) bhi
        constructor <;> omega

theorem seqRatio_nonneg (a b : String) : 0 ≤ seqRatio a b := by
  simp only [seqRatio]
  split
  · norm_num
  · positivity

theorem seqRatio_le_one (a b : String) : seqRatio a b ≤ 1 := by
  simp only [seqRatio]
  split
  · norm_num
  next h =>
    have hT : (0 : ℚ) < ((a.data.length + b.data.length : ℕ) : ℚ) := by
      exact_mod_cast Nat.pos_of_ne_zero h
    rw [div_le_one hT]
    have h1 := (matchingTotal_le a.data b.data (a.data.length + 1) 0 a.data.length 0 b.data.length).1
    have h2 := (matchingTotal_le a.data b.data (a.data.length + 1) 0 a.data.length 0 b.data.length).2
    have h1n : matchingTotal a.data b.data (a.data.length + 1) 0 a.data.length 0 b.data.length ≤ a.data.length := by
      omega
    have h2n : matchingTotal a.data b.data (a.data.length + 1) 0 a.data.length 0 b.data.length ≤ b.data.length := by
      omega
    have h1q : (matchingTotal a.data b.data (a.data.length + 1) 0 a.data.length 0 b.data.length : ℚ) ≤ (a.data.length : ℚ) := by
      exact_mod_cast h1n
    have h2q : (matchingTotal a.data b.data (a.data.length + 1) 0 a.data.length 0 b.data.length : ℚ) ≤ (b.data.length : ℚ) := by
      exact_mod_cast h2n
    push_cast
    linarith

/-!
Bounds and algebraic facts about the four similarity metrics, the rounding
helper and the grading step function.
-/

theorem checkSyntaxMatch_nonneg (a b : String) : 0 ≤ checkSyntaxMatch a b := by
  simp only [checkSyntaxMatch]
  generalize wordTokens (normalizeCode a) = t1
  generalize wordTokens (normalizeCode b) = t2
  by_cases h : t1 = [] ∨ t2 = []
  · rw [if_pos h]
  · rw [if_neg h]
    by_cases hu : 0 < (t1.toFinset ∪ t2.toFinset).card
    · rw [if_pos hu]
      positivity
    · rw [if_neg hu]

theorem checkSyntaxMatch_le_one (a b : String) : checkSyntaxMatch a b ≤ 1 := by
  simp only [checkSyntaxMatch]
  generalize wordTokens (normalizeCode a) = t1
  generalize wordTokens (normalizeCode b) = t2
  by_cases h : t1 = [] ∨ t2 = []
  · rw [if_pos h]
    norm_num
  · rw [if_neg h]
    by_cases hu : 0 < (t1.toFinset ∪ t2.toFinset).card
    · rw [if_pos hu]
      rw [div_le_one (by exact_mod_cast hu)]
      have hsub : t1.toFinset ∩ t2.toFinset ⊆ t1.toFinset ∪ t2.toFinset := by
        intro x hx
        exact Finset.mem_union_left _ (Finset.mem_of_mem_inter_left hx)
      exact_mod_cast Finset.card_le_card hsub
    · rw [if_neg hu]
      norm_num

theorem checkSyntaxMatch_comm (a b : String) : checkSyntaxMatch a b = checkSyntaxMatch b a := by
  simp only [checkSyntaxMatch]
  generalize wordTokens (normalizeCode a) = t1
  generalize wordTokens (normalizeCode b) = t2
  by_cases h1 : t1 = []
  · by_cases h2 : t2 = [] <;> simp [h1, h2]
  · by_cases h2 : t2 = []
    · simp [h1, h2]
    · rw [if_neg (show ¬(t1 = [] ∨ t2 = []) by simp [h1, h2])]
      rw [if_neg (show ¬(t2 = [] ∨ t1 = []) by simp [h1, h2])]
      rw [Finset.inter_comm, Finset.union_comm]

theorem checkSyntaxMatch_self (a : String) (h : wordTokens (normalizeCode a) ≠ []) :
    checkSyntaxMatch a a = 1 := by
  simp only [checkSyntaxMatch]
  revert h
  generalize wordTokens (normalizeCode a) = t
  intro h
  rw [if_neg (show ¬(t = [] ∨ t = []) by simp [h])]
  have hne : t.toFinset.Nonempty := by
    match hw : t with
    | [] => exact absurd rfl h
    | x :: xs => exact ⟨x, by simp [hw]⟩
  have hcard : 0 < t.toFinset.card := Finset.card_pos.mpr hne
  rw [Finset.inter_self, Finset.union_self, if_pos hcard]
  rw [div_self (by exact_mod_cast hcard.ne')]

theorem checkStructureMatch_nonneg (a b : String) : 0 ≤ checkStructureMatch a b := by
  simp only [checkStructureMatch]
  by_cases h : (structuralElements.filter (fun e => strContains a e)).length = 0 ∧
      (structuralElements.filter (fun e => strContains b e)).length = 0
  · rw [if_pos h]
    norm_num
  · rw [if_neg h]
    rw [sub_nonneg]
    have hm : (0 : ℚ) < ((max (max (structuralElements.filter (fun e => strContains a e)).length
        (structuralElements.filter (fun e => strContains b e)).length) 1 : ℕ) : ℚ) := by
      have h1 : 1 ≤ max (max (structuralElements.filter (fun e => strContains a e)).length
          (structuralElements.filter (fun e => strContains b e)).length) 1 := le_max_right _ _
      exact_mod_cast lt_of_lt_of_le zero_lt_one h1
    rw [div_le_one hm]
    have hd : max (structuralElements.filter (fun e => strContains a e)).length
          (structuralElements.filter (fun e => strContains b e)).length -
        min (structuralElements.filter (fun e => strContains a e)).length
          (structuralElements.filter (fun e => strContains b e)).length ≤
        max (max (structuralElements.filter (fun e => strContains a e)).length
          (structuralElements.filter (fun e => strContains b e)).length) 1 := by
      omega
    exact_mod_cast hd

theorem checkStructureMatch_le_one (a b : String) : checkStructureMatch a b ≤ 1 := by
  simp only [checkStructureMatch]
  by_cases h : (structuralElements.filter (fun e => strContains a e)).length = 0 ∧
      (structuralElements.filter (fun e => strContains b e)).length = 0
  · rw [if_pos h]
  · rw [if_neg h]
    have hx : (0 : ℚ) ≤ ((max (structuralElements.filter (fun e => strContains a e)).length
          (structuralElements.filter (fun e => strContains b e)).length -
        min (structuralElements.filter (fun e => strContains a e)).length
          (structuralElements.filter (fun e => strContains b e)).length : ℕ) : ℚ) /
        ((max (max (structuralElements.filter (fun e => strContains a e)).length
          (structuralElements.filter (fun e => strContains b e)).length) 1 : ℕ) : ℚ) := by
      positivity
    linarith

theorem checkStructureMatch_self (a : String) : checkStructureMatch a a = 1 := by
  simp only [checkStructureMatch]
  by_cases h : (structuralElements.filter (fun e => strContains a e)).length = 0 ∧
      (structuralElements.filter (fun e => strContains a e)).length = 0
  · rw [if_pos h]
  · rw [if_neg h]
    rw [max_self, min_self, Nat.sub_self]
    norm_num

theorem foldl_init_le {α : Type} (f : ℚ → α → ℚ) (hf : ∀ x y, x ≤ f x y) :
    ∀ (l : List α) (x : ℚ), x ≤ l.foldl f x := by
  intro l
  induction l with
  | nil => intro x; exact le_refl x
  | cons a t ih => intro x; exact le_trans (hf x a) (ih (f x a))

theorem checkLogicMatch_nonneg (a b lang : String) : 0 ≤ checkLogicMatch a b lang := by
  simp only [checkLogicMatch]
  refine le_min ?_ (by norm_num)
  refine foldl_init_le _ ?_ _ 0
  intro x y
  dsimp only
  split_ifs <;> linarith

theorem checkLogicMatch_le_one (a b lang : String) : checkLogicMatch a b lang ≤ 1 := by
  simp only [checkLogicMatch]
  exact min_le_right _ _

theorem compareOutputs_nonneg (o1 o2 : String) : 0 ≤ compareOutputs o1 o2 := by
  simp only [compareOutputs]
  by_cases h : o1 = "" ∨ o2 = ""
  · rw [if_pos h]
  · rw [if_neg h]
    by_cases he : pyLower (pyStrip o1) = pyLower (pyStrip o2)
    · rw [if_pos he]
      norm_num
    · rw [if_neg he]
      by_cases hn : findNums (pyLower (pyStrip o1)) ≠ [] ∧ findNums (pyLower (pyStrip o2)) ≠ [] ∧
          findNums (pyLower (pyStrip o1)) = findNums (pyLower (pyStrip o2))
      · rw [if_pos hn]
        norm_num
      · rw [if_neg hn]
        exact seqRatio_nonneg _ _

theorem compareOutputs_le_one (o1 o2 : String) : compareOutputs o1 o2 ≤ 1 := by
  simp only [compareOutputs]
  by_cases h : o1 = "" ∨ o2 = ""
  · rw [if_pos h]
    norm_num
  · rw [if_neg h]
    by_cases he : pyLower (pyStrip o1) = pyLower (pyStrip o2)
    · rw [if_pos he]
    · rw [if_neg he]
      by_cases hn : findNums (pyLower (pyStrip o1)) ≠ [] ∧ findNums (pyLower (pyStrip o2)) ≠ [] ∧
          findNums (pyLower (pyStrip o1)) = findNums (pyLower (pyStrip o2))
      · rw [if_pos hn]
        norm_num
      · rw [if_neg hn]
        exact seqRatio_le_one _ _

theorem roundHalfEven_le_int (q : ℚ) (n : ℤ) (h : q ≤ (n : ℚ)) : roundHalfEven q ≤ n := by
  have hfn : ⌊q⌋ ≤ n := by
    have := Int.floor_le_floor h
    rwa [Int.floor_intCast] at this
  have hfq : ((⌊q⌋ : ℤ) : ℚ) ≤ q := Int.floor_le q
  simp only [roundHalfEven]
  split_ifs with h1 h2 h3
  · exact hfn
  · have hlt : ((⌊q⌋ : ℤ) : ℚ) < (n : ℚ) := by linarith
    have : ⌊q⌋ < n := by exact_mod_cast hlt
    omega
  · exact hfn
  · have heq : q - ⌊q⌋ = 1/2 := by linarith
    have hlt : ((⌊q⌋ : ℤ) : ℚ) < (n : ℚ) := by linarith
    have : ⌊q⌋ < n := by exact_mod_cast hlt
    omega

theorem roundHalfEven_intCast (n : ℤ) : roundHalfEven ((n : ℤ) : ℚ) = n := by
  simp only [roundHalfEven, Int.floor_intCast, sub_self]
  norm_num

theorem pyRound2_le_threeQuarters (q : ℚ) (h : q ≤ 3/4) : pyRound2 q ≤ 3/4 := by
  simp only [pyRound2]
  have h1 : 100 * q ≤ ((75 : ℤ) : ℚ) := by
    push_cast
    linarith
  have h2 := roundHalfEven_le_int (100 * q) 75 h1
  have h2q : ((roundHalfEven (100 * q) : ℤ) : ℚ) ≤ 75 := by exact_mod_cast h2
  linarith

theorem pyRound2_one : pyRound2 1 = 1 := by
  simp only [pyRound2, mul_one]
  rw [show (100 : ℚ) = ((100 : ℤ) : ℚ) by norm_num, roundHalfEven_intCast]
  norm_num

theorem calculateGrade_A (q : ℚ) (h : q ≥ 9/10) : calculateGrade q = "A" := by
  simp only [calculateGrade]
  rw [if_pos h]

theorem calculateGrade_not_top (q : ℚ) (h : q < 8/10) :
    calculateGrade q ≠ "A" ∧ calculateGrade q ≠ "B" := by
  simp only [calculateGrade]
  rw [if_neg (by linarith : ¬ q ≥ 9/10), if_neg (by linarith : ¬ q ≥ 8/10)]
  split_ifs <;> exact ⟨by decide, by decide⟩

/-!
Claim theorems.
-/

/-- Claim C2, counterexample: the stderr text `"SyntaxError next to an
indexerror"` contains both `"SyntaxError"` and `"index"` (case-insensitively),
yet `classify_error` returns `IndexError`, because the IndexError rule is
checked first and `"indexerror"` is an `"index"`-containing trigger for it. -/
theorem C2_counterexample :
    strContains (pyLower "SyntaxError next to an indexerror") "syntaxerror" = true ∧
    strContains (pyLower "SyntaxError next to an indexerror") "index" = true ∧
    classifyError "SyntaxError next to an indexerror" ≠ "SyntaxError" ∧
    classifyError "SyntaxError next to an indexerror" = "IndexError" := by
  refine ⟨by decide, by decide, by decide, by decide⟩

/-- Claim C2, amended: every stderr text containing both `"SyntaxError"` and
`"index"` case-insensitively classifies as `SyntaxError` PROVIDED it does not
also contain one of the higher-priority IndexError triggers (`"indexerror"`,
`"arrayindexoutofbounds"`); the classification is an ordered case-insensitive
substring search in which the first matching rule wins and the IndexError
rule precedes the SyntaxError rule. -/
theorem C2_syntax_priority (s : String)
    (hsyn : strContains (pyLower s) "syntaxerror" = true)
    (hind : strContains (pyLower s) "index" = true)
    (hidx : strContains (pyLower s) "indexerror" = false)
    (harr : strContains (pyLower s) "arrayindexoutofbounds" = false) :
    classifyError s = "SyntaxError" := by
  have hne : s ≠ "" := by
    intro he
    subst he
    exact absurd hsyn (by decide)
  simp only [classifyError]
  rw [if_neg hne]
  rw [if_neg (by simp [hidx, harr])]
  rw [if_pos hsyn]

/-- Claim C2, witness of the amended theorem at a concrete stderr text. -/
theorem C2_witness : classifyError "SyntaxError: unexpected token at index 3" = "SyntaxError" :=
  C2_syntax_priority "SyntaxError: unexpected token at index 3"
    (by decide) (by decide) (by decide) (by decide)

/-- Claim C5, counterexample: the source counts each structural keyword at
most once (presence), not its occurrences.  For `"if a:\nif b:"` versus
`"if c:"` the implemented score is 1.0 while the claimed occurrence-based
formula gives 1 − |2−1|/2 = 0.5. -/
theorem C5_counterexample :
    checkStructureMatch "if a:\nif b:" "if c:" = 1 ∧
    specStructuralSimilarity "if a:\nif b:" "if c:" = 1/2 ∧
    ((1 : ℚ) ≠ 1/2) := by
  refine ⟨?_, ?_, by norm_num⟩
  · have h1 : (structuralElements.filter (fun e => strContains "if a:\nif b:" e)).length = 1 := by decide
    have h2 : (structuralElements.filter (fun e => strContains "if c:" e)).length = 1 := by decide
    simp only [checkStructureMatch, h1, h2]
    norm_num
  · have h1 : (structuralElements.map (fun e => strOccCount "if a:\nif b:" e)).sum = 2 := by decide
    have h2 : (structuralElements.map (fun e => strOccCount "if c:" e)).sum = 1 := by decide
    simp only [specStructuralSimilarity, h1, h2]
    norm_num

/-- Claim C5, amended: with `count_i` the number of DISTINCT structural
markers present in body `i` (each counted at most once), the structural score
is `1 − |count1−count2| / max(count1,count2,1)` (1.0 when both are zero), it
always lies in [0,1], and `Structural(a,a) = 1.0`. -/
theorem C5_structural_bounds (a b : String) :
    0 ≤ checkStructureMatch a b ∧ checkStructureMatch a b ≤ 1 ∧ checkStructureMatch a a = 1 :=
  ⟨checkStructureMatch_nonneg a b, checkStructureMatch_le_one a b, checkStructureMatch_self a⟩

/-- Claim C5, witness of the amended theorem at concrete code bodies. -/
theorem C5_witness :
    0 ≤ checkStructureMatch "def f(): pass" "if x: pass" ∧
    checkStructureMatch "def f(): pass" "if x: pass" ≤ 1 ∧
    checkStructureMatch "def f(): pass" "def f(): pass" = 1 :=
  C5_structural_bounds "def f(): pass" "if x: pass"

/-- Claim C6, counterexample: `"!!!"` is a non-empty source text, but it has
no word tokens, so `_check_syntax_match` returns 0.0 on it against itself,
not 1.0. -/
theorem C6_counterexample :
    ("!!!" : String) ≠ "" ∧ checkSyntaxMatch "!!!" "!!!" = 0 ∧ ((0 : ℚ) ≠ 1) := by
  have h : wordTokens (normalizeCode "!!!") = [] := by decide
  refine ⟨by decide, ?_, by norm_num⟩
  simp only [checkSyntaxMatch]
  rw [if_pos (Or.inl h)]

/-- Claim C6, amended: the lexical score is symmetric for all inputs, and
`Lexical(a,a) = 1.0` for every `a` whose normalized form has at least one
word token (a non-empty `a` with no tokens — only punctuation, or only
comments/strings — scores 0.0 against itself). -/
theorem C6_lexical_symm_self (a b : String) :
    checkSyntaxMatch a b = checkSyntaxMatch b a ∧
    (wordTokens (normalizeCode a) ≠ [] → checkSyntaxMatch a a = 1) :=
  ⟨checkSyntaxMatch_comm a b, fun h => checkSyntaxMatch_self a h⟩

/-- Claim C6, witness of the amended theorem at concrete source texts. -/
theorem C6_witness :
    checkSyntaxMatch "x = 1" "y = 2" = checkSyntaxMatch "y = 2" "x = 1" ∧
    checkSyntaxMatch "x = 1" "x = 1" = 1 :=
  ⟨(C6_lexical_symm_self "x = 1" "y = 2").1,
   (C6_lexical_symm_self "x = 1" "y = 2").2 (by decide)⟩

/-- Claim C7, counterexample: when the `python` binary is absent
(`FileNotFoundError` from `subprocess.run`), `execute_python_code` has no
dedicated handler, so the generic handler reports `ExecutionError`, not
`RuntimeMissing` — the request does not crash, but the claimed error kind is
wrong for this supported language. -/
theorem C7_counterexample :
    (executePythonCode 5 (.binaryMissing "[Errno 2] No such file or directory: 'python'")).errorType
      = some "ExecutionError" ∧
    (executePythonCode 5 (.binaryMissing "[Errno 2] No such file or directory: 'python'")).errorType
      ≠ some "RuntimeMissing" ∧
    (executePythonCode 5 (.binaryMissing "[Errno 2] No such file or directory: 'python'")).success
      = false := by
  refine ⟨rfl, by decide, rfl⟩

/-- Claim C7, amended: a missing interpreter binary never raises out of
either executor — a structured `success = false` result is always returned —
but only `execute_javascript_code` classifies it as `RuntimeMissing`;
`execute_python_code` reports the generic `ExecutionError`. -/
theorem C7_missing_binary (timeout : ℕ) (msg : String) :
    (executeJavascriptCode timeout (.binaryMissing msg)).success = false ∧
    (executeJavascriptCode timeout (.binaryMissing msg)).errorType = some "RuntimeMissing" ∧
    (executePythonCode timeout (.binaryMissing msg)).success = false ∧
    (executePythonCode timeout (.binaryMissing msg)).errorType = some "ExecutionError" :=
  ⟨rfl, rfl, rfl, rfl⟩

/-- Claim C7, witness of the amended theorem at a concrete outcome. -/
theorem C7_witness :
    (executeJavascriptCode 5 (.binaryMissing "no node")).errorType = some "RuntimeMissing" :=
  (C7_missing_binary 5 "no node").2.1

/-- Claim C9, counterexample: in `execute_python_code` the `os.unlink` sits
after `subprocess.run` inside the `try`, so on the timeout path (and on the
exception path) the temporary source file is NOT removed. -/
theorem C9_counterexample :
    (executePythonCodeFS 5 SpawnOutcome.timedOut).2 = false ∧
    (executePythonCodeFS 5 (.otherError "boom")).2 = false :=
  ⟨rfl, rfl⟩

/-- Claim C9, amended: `CodeExecutor._execute_local` removes the temporary
source file on every exit path (its cleanup sits in a `finally` block), and
`execute_python_code` removes it on the normal-completion path; but on the
timeout and exception paths of `execute_python_code` (and of
`execute_javascript_code`) the file is left behind. -/
theorem C9_temp_cleanup (language : String) (compileRun run : SpawnOutcome) (timeout : ℕ)
    (rc : ℤ) (out err msg : String) :
    (executeLocalFS language compileRun run).2 = true ∧
    (executePythonCodeFS timeout (.completed rc out err)).2 = true ∧
    (executePythonCodeFS timeout .timedOut).2 = false ∧
    (executePythonCodeFS timeout (.binaryMissing msg)).2 = false ∧
    (executeJavascriptCodeFS timeout .timedOut).2 = false := by
  refine ⟨?_, rfl, rfl, rfl, rfl⟩
  simp only [executeLocalFS]
  split_ifs
  · cases run <;> rfl
  · cases compileRun with
    | completed crc co ce =>
      dsimp only
      by_cases hc : crc ≠ 0
      · rw [if_pos hc]
      · rw [if_neg hc]
        cases run <;> rfl
    | timedOut => rfl
    | binaryMissing m => rfl
    | otherError m => rfl
  · rfl

/-- Claim C9, witness of the amended theorem at concrete outcomes. -/
theorem C9_witness :
    (executeLocalFS "python" (SpawnOutcome.completed 0 "" "") SpawnOutcome.timedOut).2 = true ∧
    (executePythonCodeFS 5 SpawnOutcome.timedOut).2 = false :=
  ⟨(C9_temp_cleanup "python" (SpawnOutcome.completed 0 "" "") SpawnOutcome.timedOut 5 0 "" "" "m").1,
   (C9_temp_cleanup "python" (SpawnOutcome.completed 0 "" "") SpawnOutcome.timedOut 5 0 "" "" "m").2.2.1⟩

/-- Claim C3, counterexample: for the code body `"for i in range(3):"` the
extracted pattern set is `{loop_statement}`, and the self pattern-match score
is 0.0, not 1.0: the tag text `loop_statement` never occurs verbatim in the
code, so the stored record would even be discarded by the `score > 0.1`
relevance filter on a round trip. -/
theorem C3_counterexample :
    calculatePatternMatchScore (extractPatterns "for i in range(3):" "python") "for i in range(3):" = 0 ∧
    ((0 : ℚ) ≠ 1) := by
  have hp : extractPatterns "for i in range(3):" "python" = ["loop_statement"] := by decide
  refine ⟨?_, by norm_num⟩
  rw [hp]
  have hm : (["loop_statement"].foldl
      (fun acc pattern =>
        if strContains pattern ":" then
          let key := takeBeforeSub pattern ":"
          let value := afterChar pattern ':'
          if key = "function_def" && strContains "for i in range(3):" ("def " ++ value) then acc + 2
          else if key = "var_assignment" && strContains "for i in range(3):" (value ++ " = ") then acc + 1
          else acc
        else if strContains "for i in range(3):" pattern then acc + 1
        else acc) (0 : ℕ)) = 0 := by decide
  simp only [calculatePatternMatchScore, hm]
  norm_num

/-- Claim C3, amended: the self pattern-match score of a code body is the
weighted match count divided by the number of patterns, where tag patterns
(`loop_statement`, `conditional_statement`, `return_statement`) only match
when their tag text occurs verbatim in the code (so normally never), and
function-definition matches count double.  It is therefore not 1.0 in
general: an assignment-only body scores 1.0, a loop-only body 0.0, and a
body that is a single function definition 2.0. -/
theorem C3_self_score_values :
    calculatePatternMatchScore (extractPatterns "x = 1" "python") "x = 1" = 1 ∧
    calculatePatternMatchScore (extractPatterns "for i in range(3):" "python") "for i in range(3):" = 0 ∧
    calculatePatternMatchScore (extractPatterns "def foo():" "python") "def foo():" = 2 := by
  refine ⟨?_, ?_, ?_⟩
  · have hp : extractPatterns "x = 1" "python" = ["var_assignment:x"] := by decide
    rw [hp]
    have hm : (["var_assignment:x"].foldl
        (fun acc pattern =>
          if strContains pattern ":" then
            let key := takeBeforeSub pattern ":"
            let value := afterChar pattern ':'
            if key = "function_def" && strContains "x = 1" ("def " ++ value) then acc + 2
            else if key = "var_assignment" && strContains "x = 1" (value ++ " = ") then acc + 1
            else acc
          else if strContains "x = 1" pattern then acc + 1
          else acc) (0 : ℕ)) = 1 := by decide
    simp only [calculatePatternMatchScore, hm]
    norm_num
  · have hp : extractPatterns "for i in range(3):" "python" = ["loop_statement"] := by decide
    rw [hp]
    have hm : (["loop_statement"].foldl
        (fun acc pattern =>
          if strContains pattern ":" then
            let key := takeBeforeSub pattern ":"
            let value := afterChar pattern ':'
            if key = "function_def" && strContains "for i in range(3):" ("def " ++ value) then acc + 2
            else if key = "var_assignment" && strContains "for i in range(3):" (value ++ " = ") then acc + 1
            else acc
          else if strContains "for i in range(3):" pattern then acc + 1
          else acc) (0 : ℕ)) = 0 := by decide
    simp only [calculatePatternMatchScore, hm]
    norm_num
  · have hp : extractPatterns "def foo():" "python" = ["function_def:foo"] := by decide
    rw [hp]
    have hm : (["function_def:foo"].foldl
        (fun acc pattern =>
          if strContains pattern ":" then
            let key := takeBeforeSub pattern ":"
            let value := afterChar pattern ':'
            if key = "function_def" && strContains "def foo():" ("def " ++ value) then acc + 2
            else if key = "var_assignment" && strContains "def foo():" (value ++ " = ") then acc + 1
            else acc
          else if strContains "def foo():" pattern then acc + 1
          else acc) (0 : ℕ)) = 2 := by decide
    simp only [calculatePatternMatchScore, hm]
    norm_num

/-- Claim C4, counterexample: for the outputs `"a1"` and `"b1"` the numeric
extraction yields `["1"]` on both sides, so `_compare_outputs` returns 0.8
even though the outputs do NOT consist only of numeric tokens; the claimed
behaviour (fall through to the sequence ratio) would give 0.5. -/
theorem C4_counterexample :
    compareOutputs "a1" "b1" = 4/5 ∧
    specOutputSimilarity "a1" "b1" = 1/2 ∧
    ((4 : ℚ)/5 ≠ 1/2) := by
  refine ⟨?_, ?_, by norm_num⟩
  · simp only [compareOutputs]
    rw [if_neg (by decide : ¬(("a1" : String) = "" ∨ ("b1" : String) = ""))]
    rw [if_neg (by decide : ¬(pyLower (pyStrip "a1") = pyLower (pyStrip "b1")))]
    rw [if_pos (by decide : findNums (pyLower (pyStrip "a1")) ≠ [] ∧
        findNums (pyLower (pyStrip "b1")) ≠ [] ∧
        findNums (pyLower (pyStrip "a1")) = findNums (pyLower (pyStrip "b1")))]
  · simp only [specOutputSimilarity]
    rw [if_neg (by decide : ¬(("a1" : String) = "" ∨ ("b1" : String) = ""))]
    rw [if_neg (by decide : ¬(pyLower (pyStrip "a1") = pyLower (pyStrip "b1")))]
    rw [if_neg (by decide : ¬(pyWords (pyLower (pyStrip "a1")) ≠ [] ∧
        pyWords (pyLower (pyStrip "b1")) ≠ [] ∧
        (pyWords (pyLower (pyStrip "a1"))).all isNumericToken = true ∧
        (pyWords (pyLower (pyStrip "b1"))).all isNumericToken = true ∧
        pyWords (pyLower (pyStrip "a1")) = pyWords (pyLower (pyStrip "b1"))))]
    rw [(by decide : pyLower (pyStrip "a1") = "a1"), (by decide : pyLower (pyStrip "b1") = "b1")]
    have h : matchingTotal "a1".data "b1".data ("a1".data.length + 1) 0 "a1".data.length 0 "b1".data.length = 1 := by
      decide
    simp only [seqRatio, h]
    norm_num

/-- Claim C4, amended: the output similarity is 0.0 when either RAW captured
output is empty; 1.0 when the trimmed lower-cased outputs are equal; 0.8 when
both outputs contain at least one numeric literal and the extracted numeric
sequences are equal (regardless of any surrounding non-numeric text); and
otherwise the `SequenceMatcher` ratio of the normalized outputs — and the
result always lies in [0,1]. -/
theorem C4_output_similarity (o1 o2 : String) :
    0 ≤ compareOutputs o1 o2 ∧ compareOutputs o1 o2 ≤ 1 ∧
    ((o1 = "" ∨ o2 = "") → compareOutputs o1 o2 = 0) ∧
    (¬(o1 = "" ∨ o2 = "") → pyLower (pyStrip o1) = pyLower (pyStrip o2) →
      compareOutputs o1 o2 = 1) ∧
    (¬(o1 = "" ∨ o2 = "") → pyLower (pyStrip o1) ≠ pyLower (pyStrip o2) →
      (findNums (pyLower (pyStrip o1)) ≠ [] ∧ findNums (pyLower (pyStrip o2)) ≠ [] ∧
        findNums (pyLower (pyStrip o1)) = findNums (pyLower (pyStrip o2))) →
      compareOutputs o1 o2 = 4/5) ∧
    (¬(o1 = "" ∨ o2 = "") → pyLower (pyStrip o1) ≠ pyLower (pyStrip o2) →
      ¬(findNums (pyLower (pyStrip o1)) ≠ [] ∧ findNums (pyLower (pyStrip o2)) ≠ [] ∧
        findNums (pyLower (pyStrip o1)) = findNums (pyLower (pyStrip o2))) →
      compareOutputs o1 o2 = seqRatio (pyLower (pyStrip o1)) (pyLower (pyStrip o2))) := by
  refine ⟨compareOutputs_nonneg o1 o2, compareOutputs_le_one o1 o2, ?_, ?_, ?_, ?_⟩
  · intro h
    simp only [compareOutputs]
    rw [if_pos h]
  · intro h he
    simp only [compareOutputs]
    rw [if_neg h, if_pos he]
  · intro h he hn
    simp only [compareOutputs]
    rw [if_neg h, if_neg he, if_pos hn]
  · intro h he hn
    simp only [compareOutputs]
    rw [if_neg h, if_neg he, if_neg hn]

/-- Claim C4, witness of the amended theorem: outputs that agree on their
numeric sequences but differ in surrounding text score 0.8. -/
theorem C4_witness : compareOutputs "score: 42" "value: 42" = 4/5 :=
  (C4_output_similarity "score: 42" "value: 42").2.2.2.2.1
    (by decide) (by decide) (by decide)

/-- Claim C10: for any manual-check request whose language is not
`"python"`, `ManualCodeChecker.compare` executes neither body — both
execution results are the literal `{success: False, output: ""}` — so the
output score is 0.0, the overall score is at most 0.75, and the grade is at
best C (never A or B), even for identical submission and manual code. -/
theorem C10_nonpython (s m language : String) (pyExec : String → PyExecOut)
    (h : language ≠ "python") :
    (compareCodes s m language pyExec).studentExec = { success := false, output := "" } ∧
    (compareCodes s m language pyExec).manualExec = { success := false, output := "" } ∧
    (compareCodes s m language pyExec).outputMatch = 0 ∧
    (compareCodes s m language pyExec).overallScore ≤ 3/4 ∧
    (compareCodes s m language pyExec).grade ≠ "A" ∧
    (compareCodes s m language pyExec).grade ≠ "B" := by
  have hzero : compareOutputs "" "" = 0 := by
    simp [compareOutputs]
  have hb1 := checkSyntaxMatch_le_one s m
  have hb2 := checkStructureMatch_le_one s m
  have hb3 := checkLogicMatch_le_one s m language
  simp only [compareCodes, if_neg h, hzero]
  refine ⟨trivial, trivial, trivial, ?_, ?_⟩
  · exact pyRound2_le_threeQuarters _ (by linarith)
  · exact calculateGrade_not_top _ (by linarith)

/-- Claim C10, witness at a concrete non-python request. -/
theorem C10_witness :
    (compareCodes "x = 1" "x = 1" "javascript" (fun _ => { success := true, output := "1" })).outputMatch = 0 ∧
    (compareCodes "x = 1" "x = 1" "javascript" (fun _ => { success := true, output := "1" })).grade ≠ "A" :=
  ⟨(C10_nonpython "x = 1" "x = 1" "javascript" (fun _ => { success := true, output := "1" }) (by decide)).2.2.1,
   (C10_nonpython "x = 1" "x = 1" "javascript" (fun _ => { success := true, output := "1" }) (by decide)).2.2.2.2.1⟩

theorem compareOutputs_self_nonempty (o : String) (h : o ≠ "") : compareOutputs o o = 1 := by
  simp [compareOutputs, h]

/-- Claim C1, counterexample: comparing the submission `"x = 1"` against
itself with language `"javascript"` (the claim quantifies over every
language) yields output score 0.0, logic score 0.0, overall score 0.5 and
grade F — not all-1.0 scores and grade A. -/
theorem C1_counterexample :
    (compareCodes "x = 1" "x = 1" "javascript" (fun _ => { success := false, output := "" })).outputMatch = 0 ∧
    (compareCodes "x = 1" "x = 1" "javascript" (fun _ => { success := false, output := "" })).logicMatch = 0 ∧
    (compareCodes "x = 1" "x = 1" "javascript" (fun _ => { success := false, output := "" })).overallScore = 1/2 ∧
    (compareCodes "x = 1" "x = 1" "javascript" (fun _ => { success := false, output := "" })).grade = "F" ∧
    (compareCodes "x = 1" "x = 1" "javascript" (fun _ => { success := false, output := "" })).grade ≠ "A" := by
  have hzero : compareOutputs "" "" = 0 := by simp [compareOutputs]
  have hsyn : checkSyntaxMatch "x = 1" "x = 1" = 1 := checkSyntaxMatch_self _ (by decide)
  have hstr : checkStructureMatch "x = 1" "x = 1" = 1 := checkStructureMatch_self _
  have hlog : checkLogicMatch "x = 1" "x = 1" "javascript" = 0 := by
    have hl : logicIndicators "javascript" =
        ["function ", "return ", "for ", "while ", "if ", "else ", "const ", "let ", "var "] := by
      decide
    simp only [checkLogicMatch, hl]
    have hfold : (["function ", "return ", "for ", "while ", "if ", "else ", "const ", "let ", "var "].foldl
        (fun acc indicator =>
          let inStudent := strContains "x = 1" indicator
          let inManual := strContains "x = 1" indicator
          if inStudent && inManual then acc + 1/10
          else if (inStudent && !inManual) || (!inStudent && inManual) then acc + 1/20
          else acc) (0 : ℚ)) = 0 := by
      have hc : ∀ ind ∈ ["function ", "return ", "for ", "while ", "if ", "else ", "const ", "let ", "var "],
          strContains "x = 1" ind = false := by decide
      simp only [List.foldl,
        hc "function " (by decide), hc "return " (by decide), hc "for " (by decide),
        hc "while " (by decide), hc "if " (by decide), hc "else " (by decide),
        hc "const " (by decide), hc "let " (by decide), hc "var " (by decide)]
      norm_num
    rw [hfold]
    simp
  have hround : pyRound2 (1 * (1/4) + 1 * (1/4) + 0 * (1/4) + 0 * (1/4)) = 1/2 := by
    have h50 : (100 : ℚ) * (1 * (1/4) + 1 * (1/4) + 0 * (1/4) + 0 * (1/4)) = ((50 : ℤ) : ℚ) := by
      norm_num
    simp only [pyRound2, h50, roundHalfEven_intCast]
    norm_num
  have hgrade : calculateGrade (1 * (1/4) + 1 * (1/4) + 0 * (1/4) + 0 * (1/4)) = "F" := by
    simp only [calculateGrade]
    rw [if_neg (by norm_num), if_neg (by norm_num), if_neg (by norm_num), if_neg (by norm_num)]
  simp only [compareCodes, if_neg (by decide : ("javascript" : String) ≠ "python"), hzero, hsyn,
    hstr, hlog, hround, hgrade]
  refine ⟨trivial, trivial, trivial, trivial, by decide⟩

/-- Claim C1, amended: for identical python submissions the lexical and
structural scores are 1.0 provided the normalized code has at least one word
token; the logic score reaches 1.0 exactly when the body contains all ten
python logic indicators (each present indicator contributes 0.1 to both
sides); the output score is 1.0 provided the (deterministic) execution output
is non-empty; and when all of these hold the overall score is 1.0 and the
grade is A.  For identical texts missing some indicator, producing no output,
or submitted under a non-python language, the scores fall short of 1.0. -/
theorem C1_identical_python (s : String) (pyExec : String → PyExecOut)
    (htok : wordTokens (normalizeCode s) ≠ [])
    (hind : ∀ ind ∈ logicIndicators "python", strContains s ind = true)
    (hout : (pyExec s).output ≠ "") :
    (compareCodes s s "python" pyExec).syntaxMatch = 1 ∧
    (compareCodes s s "python" pyExec).structureMatch = 1 ∧
    (compareCodes s s "python" pyExec).logicMatch = 1 ∧
    (compareCodes s s "python" pyExec).outputMatch = 1 ∧
    (compareCodes s s "python" pyExec).overallScore = 1 ∧
    (compareCodes s s "python" pyExec).grade = "A" := by
  have hpyl : logicIndicators "python" =
      ["def ", "return ", "for ", "while ", "if ", "else ", "elif ", "in ", "range(", "len("] := by
    decide
  have hsyn : checkSyntaxMatch s s = 1 := checkSyntaxMatch_self s htok
  have hstr : checkStructureMatch s s = 1 := checkStructureMatch_self s
  have hlog : checkLogicMatch s s "python" = 1 := by
    rw [hpyl] at hind
    simp only [checkLogicMatch, hpyl]
    have hfold : (["def ", "return ", "for ", "while ", "if ", "else ", "elif ", "in ", "range(", "len("].foldl
        (fun acc indicator =>
          let inStudent := strContains s indicator
          let inManual := strContains s indicator
          if inStudent && inManual then acc + 1/10
          else if (inStudent && !inManual) || (!inStudent && inManual) then acc + 1/20
          else acc) (0 : ℚ)) = 1 := by
      simp only [List.foldl,
        hind "def " (by decide), hind "return " (by decide), hind "for " (by decide),
        hind "while " (by decide), hind "if " (by decide), hind "else " (by decide),
        hind "elif " (by decide), hind "in " (by decide), hind "range(" (by decide),
        hind "len(" (by decide)]
      norm_num
    rw [hfold]
    simp
  have hop : compareOutputs (pyExec s).output (pyExec s).output = 1 :=
    compareOutputs_self_nonempty _ hout
  have hround : pyRound2 (1 * (1/4) + 1 * (1/4) + 1 * (1/4) + 1 * (1/4)) = 1 := by
    have hone : (1 : ℚ) * (1/4) + 1 * (1/4) + 1 * (1/4) + 1 * (1/4) = 1 := by norm_num
    rw [hone, pyRound2_one]
  have hgrade : calculateGrade (1 * (1/4) + 1 * (1/4) + 1 * (1/4) + 1 * (1/4)) = "A" :=
    calculateGrade_A _ (by norm_num)
  simp only [compareCodes, if_true, hsyn, hstr, hlog, hop, hround, hgrade]
  exact ⟨trivial, trivial, trivial, trivial, trivial, trivial⟩

set_option maxRecDepth 100000 in
/-- Claim C1, witness of the amended theorem: a python body containing all
ten logic indicators, compared against itself with a deterministic non-empty
output, scores 1.0 everywhere and receives grade A. -/
theorem C1_witness :
    (compareCodes "def f():\n for x in range(len(a)):\n  while b:\n   pass\n  if c:\n   pass\n  elif d:\n   pass\n  else :\n   pass\n return 1"
      "def f():\n for x in range(len(a)):\n  while b:\n   pass\n  if c:\n   pass\n  elif d:\n   pass\n  else :\n   pass\n return 1"
      "python" (fun _ => { success := true, output := "42" })).grade = "A" :=
  (C1_identical_python
    "def f():\n for x in range(len(a)):\n  while b:\n   pass\n  if c:\n   pass\n  elif d:\n   pass\n  else :\n   pass\n return 1"
    (fun _ => { success := true, output := "42" })
    (by decide) (by decide) (by decide)).2.2.2.2.2

theorem append_left_ne_empty (a b : String) (ha : a ≠ "") : a ++ b ≠ "" := by
  intro he
  apply ha
  have hd := congrArg String.data he
  rw [String.data_append] at hd
  exact String.ext (List.append_eq_nil.mp hd).1

theorem generateRuleBasedHint_ne_empty (error language code : String) :
    generateRuleBasedHint error language code ≠ "" := by
  have hbase : ("Debugging " ++ language ++ " code:\n" ++ pyJoin "\n" (ruleTable language)) ≠ "" :=
    append_left_ne_empty _ _ (append_left_ne_empty _ _ (append_left_ne_empty _ _ (by decide)))
  simp only [generateRuleBasedHint]
  split_ifs
  · exact append_left_ne_empty _ _ hbase
  · exact hbase

theorem pyJoin_cons_ne_empty (sep x : String) (l : List String) (hx : x ≠ "") :
    pyJoin sep (x :: l) ≠ "" := by
  cases l with
  | nil => simpa [pyJoin] using hx
  | cons y t => exact append_left_ne_empty _ _ (append_left_ne_empty _ _ hx)

theorem generatePatternBasedHint_ne_empty (studentCode error : String)
    (sols : List SimilarSolution) : generatePatternBasedHint studentCode error sols ≠ "" := by
  cases sols with
  | nil => exact generateRuleBasedHint_ne_empty error "python" studentCode
  | cons best rest =>
    simp only [generatePatternBasedHint, List.cons_append, List.nil_append]
    exact pyJoin_cons_ne_empty _ _ _
      (append_left_ne_empty _ _ (append_left_ne_empty _ _ (by decide)))

/-- Claim C8, counterexample: with an empty corpus (no candidate clears the
threshold) and no failure, a `"java"` request falls back to the checklist
with the language HARD-CODED to `"python"` — `_generate_pattern_based_hint`
calls `_generate_rule_based_hint(error, "python", student_code)` — so the
fallback is not keyed by the request language as claimed (the java checklist
differs from the python one). -/
theorem C8_counterexample :
    (generateHint [] none false "x" "boom" "java" none).hint =
      generateRuleBasedHint "boom" "python" "x" ∧
    generateRuleBasedHint "boom" "python" "x" ≠ generateRuleBasedHint "boom" "java" "x" := by
  refine ⟨rfl, by decide⟩

/-- Claim C8, amended: `generate_hint` always returns a non-empty hint; when
an internal (database-connection) failure occurs it falls back to the static
checklist for the REQUEST language, but when no stored candidate clears the
0.1 relevance threshold the fallback checklist language is hard-coded to
`"python"` regardless of the request language. -/
theorem C8_hint_fallback (corpus : List RagRow) (connectFail : Option String) (queryFails : Bool)
    (studentCode error language : String) (taskId : Option String) :
    (generateHint corpus connectFail queryFails studentCode error language taskId).hint ≠ "" ∧
    (∀ msg, connectFail = some msg →
      (generateHint corpus connectFail queryFails studentCode error language taskId).hint =
        generateRuleBasedHint error language studentCode ∧
      (generateHint corpus connectFail queryFails studentCode error language taskId).ragUsed = false) ∧
    (connectFail = none →
      searchByPatterns (extractPatterns studentCode language) language taskId error corpus queryFails = [] →
      (generateHint corpus connectFail queryFails studentCode error language taskId).hint =
        generateRuleBasedHint error "python" studentCode ∧
      (generateHint corpus connectFail queryFails studentCode error language taskId).ragUsed = true) := by
  cases hcf : connectFail with
  | some m =>
    refine ⟨?_, ?_, ?_⟩
    · simp only [generateHint]
      exact generateRuleBasedHint_ne_empty error language studentCode
    · intro msg hmsg
      simp only [generateHint]
      exact ⟨by trivial, by trivial⟩
    · intro hnone
      exact absurd hnone (by simp)
  | none =>
    refine ⟨?_, ?_, ?_⟩
    · simp only [generateHint]
      exact generatePatternBasedHint_ne_empty studentCode error _
    · intro msg hmsg
      exact absurd hmsg (by simp)
    · intro _ hs
      simp only [generateHint, hs]
      exact ⟨by trivial, by trivial⟩

/-- Claim C8, witness of the amended theorem: a failing database connection
on a java request yields the java checklist, and a java request with an
empty corpus yields the python checklist. -/
theorem C8_witness :
    (generateHint [] (some "db locked") false "y = 2" "err" "java" none).hint =
      generateRuleBasedHint "err" "java" "y = 2" ∧
    (generateHint [] none false "y = 2" "err" "java" none).hint =
      generateRuleBasedHint "err" "python" "y = 2" :=
  ⟨((C8_hint_fallback [] (some "db locked") false "y = 2" "err" "java" none).2.1
      "db locked" rfl).1,
   ((C8_hint_fallback [] none false "y = 2" "err" "java" none).2.2
      rfl (by decide)).1⟩
